import Mathlib

/-
Verification of the file-backed logger in src/logger.py.

The program is embedded shallowly and sequentially:
- A Python instance namespace is a record of attributes; the outer Option of
  each field records whether the attribute has been assigned yet (reading an
  unassigned attribute raises AttributeError, as in Python), and an inner
  Option models a field that the source explicitly stores None into.
- The process-wide state (the Logger.open_loggers registry, the set of open
  file objects with their accumulated writes, and stderr) is an explicit Sys
  record threaded through every method.
- Wall-clock timestamps (datetime.now) and filesystem outcomes (whether an
  open(...) call succeeds) are parameters of the methods that consume them.
- Exceptions are Except / an Option PyError component of the result.
-/

/-- The exceptions the source can raise: the custom classes of the Errors
container in src/logger.py plus the built-in Python exceptions its code paths
can produce (AttributeError, ValueError, KeyError, IOError). -/
inductive PyError where
  | attributeError (attr : String)
  | valueError (msg : String)
  | keyError (key : String)
  | ioError (msg : String)
  | fileNotOpen (msg : String)
  | pathNonExistant (msg : String)
  | levelNotSupported (msg : String)
  | unableToLock (msg : String)
  deriving DecidableEq, Repr

/-- True exactly on the LevelNotSupported constructor. -/
def PyError.isLevelNotSupported : PyError → Bool
  | PyError.levelNotSupported _ => true
  | _ => false

/-- Python attribute read: `none` in the outer layer means the attribute was
never assigned on the instance, and reading it raises AttributeError. -/
def getattr {α : Type} (v : Option α) (name : String) : Except PyError α :=
  match v with
  | some a => Except.ok a
  | none => Except.error (PyError.attributeError name)

/-- Lookup in an association list (a Python dict access that may miss). -/
def alookup {κ α : Type} [DecidableEq κ] (l : List (κ × α)) (k : κ) : Option α :=
  match l with
  | [] => none
  | (k0, a) :: rest => if k0 = k then some a else alookup rest k

/-- Update the value stored under a key, leaving the list unchanged when the
key is absent (mutation of an existing dict entry / file object). -/
def amodify {κ α : Type} [DecidableEq κ] (l : List (κ × α)) (k : κ) (f : α → α) :
    List (κ × α) :=
  match l with
  | [] => []
  | (k0, a) :: rest =>
      if k0 = k then (k0, f a) :: amodify rest k f else (k0, a) :: amodify rest k f

/-- Remove every entry under a key (Python `del d[k]` on a dict, whose keys
are unique). -/
def aremove {κ α : Type} [DecidableEq κ] (l : List (κ × α)) (k : κ) : List (κ × α) :=
  l.filter (fun p => if p.1 = k then false else true)

/-- The parsed settings JSON (json.load result in src/logger.py lines 109/115):
we track the LogLevels key, mapping upper-case names to integer ordinals, and
whether the dict has any further keys (only its truthiness matters). A falsy
Settings value also stands for a Python None settings object, since the source
only ever tests `if self.settings:` before subscripting. -/
structure Settings where
  logLevels : Option (List (String × Int))
  extraKeys : Bool
  deriving DecidableEq, Repr

/-- Python truthiness of the settings dict: nonempty. -/
def Settings.truthy (s : Settings) : Bool := s.logLevels.isSome || s.extraKeys

/-- Subscript access `settings["LogLevels"]`: KeyError when the key is absent. -/
def Settings.getLogLevels (s : Settings) : Except PyError (List (String × Int)) :=
  match s.logLevels with
  | some t => Except.ok t
  | none => Except.error (PyError.keyError "LogLevels")

/-- One open-file object: whether it is still open and the list of strings
written to it so far (one element per write call). -/
structure FileState where
  isOpen : Bool
  contents : List String
  deriving DecidableEq, Repr

/-- The process-wide state: the class-level Logger.open_loggers dict mapping a
log-file name to a file object (identified by a numeric handle), the file
objects themselves, a counter for fresh handles, and stderr. -/
structure Sys where
  open_loggers : List (String × Nat)
  files : List (Nat × FileState)
  nextHandle : Nat
  stderr : List String
  deriving DecidableEq, Repr

/-- file.write: appends one string, raising ValueError when the file object
has been closed (Python: I/O operation on closed file). -/
def Sys.write (sys : Sys) (h : Nat) (s : String) : Except PyError Sys :=
  match alookup sys.files h with
  | some fs =>
      if fs.isOpen then
        Except.ok { sys with
          files := amodify sys.files h (fun fs0 => { fs0 with contents := fs0.contents ++ [s] }) }
      else Except.error (PyError.valueError "I/O operation on closed file")
  | none => Except.error (PyError.valueError "I/O operation on closed file")

/-- file.close: marks the file object closed; a second close is a no-op. -/
def Sys.closeHandle (sys : Sys) (h : Nat) : Sys :=
  { sys with files := amodify sys.files h (fun fs => { fs with isOpen := false }) }

/-- Whether the file object behind handle h exists and is still open. -/
def Sys.handleOpen (sys : Sys) (h : Nat) : Bool :=
  match alookup sys.files h with
  | some fs => fs.isOpen
  | none => false

/-- The writes accumulated in the file object behind handle h. -/
def Sys.contentsOf (sys : Sys) (h : Nat) : List String :=
  match alookup sys.files h with
  | some fs => fs.contents
  | none => []

/-- A Logger instance namespace (the attributes src/logger.py assigns).
Outer Option: assigned or not; inner Option where present: Python None.
lock is the truthiness of the lock object; log_file holds the handle of the
shared file object; paths and timestamps are rendered as strings. -/
structure PyInst where
  lock : Option Bool := none
  loglevel : Option String := none
  file_path : Option (Option String) := none
  log_file : Option (Option Nat) := none
  log_file_name : Option (Option String) := none
  timestamp : Option (Option String) := none
  supported_formats : Option (List String) := none
  configured_level_value : Option (Option Int) := none
  log_file_type : Option String := none
  settings : Option Settings := none
  settings_path : Option String := none
  deriving DecidableEq, Repr

/-- Python truthiness of an optional string (the context argument of log):
None and the empty rendering are falsy. -/
def pyTruthyStr (v : Option String) : Bool :=
  match v with
  | none => false
  | some s => !s.isEmpty

/-- Python str.upper() on the ASCII level names the program uses: upper-case
each character (agrees with String.toUpper, stated on the character list so
that it evaluates inside the kernel). -/
def pyUpper (s : String) : String := String.mk (s.data.map Char.toUpper)

/-- str() rendering of an optional string value (str(None) is "None"). -/
def pyStr (v : Option String) : String :=
  match v with
  | none => "None"
  | some s => s

/-- Logger.format (src/logger.py line 121): " ".join of the str of each
argument. -/
def Logger.format (args : List String) : String :=
  match args with
  | [] => ""
  | [a] => a
  | a :: rest => a ++ " " ++ Logger.format rest

/-- Logger.log (src/logger.py lines 131-188). ts is the datetime.now()
rendering taken at entry. Every raise in the source happens before the single
write, so an error result leaves the caller's Sys unchanged. -/
def Logger.log (self : PyInst) (sys : Sys) (ts : String) (level message : String)
    (context : Option String) : Except PyError Sys :=
  let message := Logger.format [message]
  let level := pyUpper level
  match getattr self.lock "lock" with
  | Except.error e => Except.error e
  | Except.ok lock =>
    if lock then
      match getattr self.log_file "log_file" with
      | Except.error e => Except.error e
      | Except.ok none => Except.error (PyError.fileNotOpen "Log file is not open")
      | Except.ok (some h) =>
        match getattr self.settings "settings" with
        | Except.error e => Except.error e
        | Except.ok st =>
          if st.truthy then
            match st.getLogLevels with
            | Except.error e => Except.error e
            | Except.ok tbl =>
              match alookup tbl level with
              | some o =>
                (match getattr self.configured_level_value "configured_level_value" with
                 | Except.error e => Except.error e
                 | Except.ok none =>
                     Except.error (PyError.levelNotSupported (level ++ " is not a valid log level"))
                 | Except.ok (some t) =>
                   if o ≥ t then
                     if pyTruthyStr context = false then
                       sys.write h ("[" ++ ts ++ "] [" ++ level ++ "] " ++ message ++ "\n")
                     else
                       sys.write h
                         ("[" ++ ts ++ "] [" ++ level ++ "] " ++ message ++ " ["
                           ++ pyStr context ++ "]\n")
                   else Except.ok sys)
              | none =>
                  Except.error (PyError.levelNotSupported (level ++ " is not a valid log level"))
          else Except.ok sys
    else Except.error (PyError.unableToLock "Self.lock is None or false for some reason")

/-- Result of a method that can both mutate state and raise: the instance, the
process state after the call, and the exception propagated to the caller if
any (Python objects keep the mutations made before a raise). -/
structure StepResult where
  self : PyInst
  sys : Sys
  err : Option PyError
  deriving DecidableEq, Repr

/-- Logger.get_log_name (src/logger.py lines 218-231): file_path joined with
the f-string of timestamp and log_file_type, or PathNonExistant when
file_path is falsy (None). -/
def Logger.get_log_name (self : PyInst) : Except PyError String :=
  match getattr self.file_path "file_path" with
  | Except.error e => Except.error e
  | Except.ok (some p) =>
    match getattr self.timestamp "timestamp" with
    | Except.error e => Except.error e
    | Except.ok t =>
      match getattr self.log_file_type "log_file_type" with
      | Except.error e => Except.error e
      | Except.ok ext => Except.ok (p ++ "/" ++ pyStr t ++ "." ++ ext)
  | Except.ok none => Except.error (PyError.pathNonExistant "File path not found")

/-- Logger.create_log_file (src/logger.py lines 191-216). openOK models
whether the open(name, "a") call succeeds (IOError otherwise); ts is the
datetime.now() rendering used by the nested Starting log call; mkdir is a
filesystem side effect with no observable trace in the model. The IOError of
a failed open is caught and only written to stderr; any exception raised by
the nested Starting log call is not an IOError and propagates. -/
def Logger.create_log_file (self : PyInst) (sys : Sys) (openOK : Bool) (ts : String) :
    StepResult :=
  match Logger.get_log_name self with
  | Except.error e => StepResult.mk self sys (some e)
  | Except.ok name =>
    let self := { self with log_file_name := some (some name) }
    match getattr self.file_path "file_path" with
    | Except.error e => StepResult.mk self sys (some e)
    | Except.ok (some _) =>
      (match alookup sys.open_loggers name with
       | some h => StepResult.mk { self with log_file := some (some h) } sys none
       | none =>
         if openOK then
           let h := sys.nextHandle
           let self := { self with log_file := some (some h) }
           let sys := { sys with
             files := sys.files ++ [(h, FileState.mk true [])],
             open_loggers := sys.open_loggers ++ [(name, h)],
             nextHandle := h + 1 }
           match Logger.log self sys ts "info" "Starting" none with
           | Except.ok sys2 => StepResult.mk self sys2 none
           | Except.error e => StepResult.mk self sys (some e)
         else
           StepResult.mk self
             { sys with stderr := sys.stderr ++ ["Error: Unable to open log file " ++ name ++ "\n"] }
             none)
    | Except.ok none => StepResult.mk self sys (some (PyError.pathNonExistant "File path not found"))

/-- The registry step of the finally block in Logger.close (lines 250-254):
if the name is a key of open_loggers, delete its entry. -/
def Sys.delEntry (sys : Sys) (name : String) : Sys :=
  match alookup sys.open_loggers name with
  | some _ => { sys with open_loggers := aremove sys.open_loggers name }
  | none => sys

/-- Logger.close (src/logger.py lines 233-259). The final Closing file write
runs inside try; the finally block always closes the file object, removes the
registry entry if present, and nulls self.log_file; an exception raised by the
try block still propagates after the finally block has run. -/
def Logger.close (self : PyInst) (sys : Sys) (ts : String) : StepResult :=
  match getattr self.log_file "log_file" with
  | Except.error e => StepResult.mk self sys (some e)
  | Except.ok none => StepResult.mk self sys (some (PyError.fileNotOpen "Log file is not open"))
  | Except.ok (some h) =>
    let banner := Logger.log self sys ts "info" "Closing file" none
    let sys1 := match banner with
      | Except.ok s => s
      | Except.error _ => sys
    let sys2 := sys1.closeHandle h
    match getattr self.log_file_name "log_file_name" with
    | Except.error e2 => StepResult.mk self sys2 (some e2)
    | Except.ok nameOpt =>
      let sys3 := match nameOpt with
        | some name => sys2.delEntry name
        | none => sys2
      StepResult.mk { self with log_file := some none } sys3
        (match banner with
         | Except.ok _ => none
         | Except.error e => some e)

/-- Logger.__init__ (src/logger.py lines 40-118). now renders datetime.now();
cwd and resolvePath model Path.cwd().resolve() and Path(dir).resolve(); openOK
models the log-file open; settingsFile models the settings-file load (none:
the open/json.load of the settings path raises). Line 80 reads self.settings
to compute configured_level_value before self.settings has ever been
assigned (the assignment only happens at lines 109/115, after
create_log_file), so control always leaves through the AttributeError
branch; the remaining statements are transcribed from the source but are
unreachable. -/
def Logger.init (output_dir log_file_type settings_path LogLevel : String)
    (now cwd : String) (resolvePath : String → String) (openOK : Bool)
    (settingsFile : Option Settings) (sys : Sys) : StepResult :=
  let self : PyInst := {}
  let self := { self with lock := some true }
  let self := { self with loglevel := some (pyUpper LogLevel) }
  let self := { self with file_path := some none, log_file := some none,
                          log_file_name := some none, timestamp := some none }
  let self := { self with timestamp := some (some now) }
  let self := { self with supported_formats := some ["log", "txt"] }
  match getattr self.settings "settings" with
  | Except.error e => StepResult.mk self sys (some e)
  | Except.ok st =>
    match st.getLogLevels with
    | Except.error e => StepResult.mk self sys (some e)
    | Except.ok tbl =>
      match getattr self.loglevel "loglevel" with
      | Except.error e => StepResult.mk self sys (some e)
      | Except.ok lvl =>
        let self := { self with configured_level_value := some (alookup tbl lvl) }
        match getattr self.supported_formats "supported_formats" with
        | Except.error e => StepResult.mk self sys (some e)
        | Except.ok fmts =>
          if log_file_type ∈ fmts then
            let self := { self with log_file_type := some log_file_type }
            let resolved := if output_dir = "." then cwd else resolvePath output_dir
            let self := { self with file_path := some (some resolved) }
            let r := Logger.create_log_file self sys openOK now
            match r.err with
            | some e => StepResult.mk r.self r.sys (some e)
            | none =>
              let self := { r.self with settings_path := some settings_path }
              match settingsFile with
              | some st2 => StepResult.mk { self with settings := some st2 } r.sys none
              | none => StepResult.mk self r.sys (some (PyError.ioError "settings file open failed"))
          else StepResult.mk self sys (some (PyError.valueError "Log file type isnt supported"))

/-- A level table like the one the settings file ships (upper-case names to
ordinals). -/
def tbl0 : List (String × Int) := [("DEBUG", 0), ("INFO", 1), ("WARNING", 2), ("ERROR", 3)]

/-- A loaded settings dict holding tbl0 under LogLevels. -/
def st0 : Settings := Settings.mk (some tbl0) false

/-- A fully initialised open logger instance at threshold INFO, holding file
handle 0 for /logs/2026.log (the state the per-method claims presuppose). -/
def instA : PyInst :=
  { lock := some true, loglevel := some "INFO",
    file_path := some (some "/logs"), log_file := some (some 0),
    log_file_name := some (some "/logs/2026.log"), timestamp := some (some "2026"),
    supported_formats := some ["log", "txt"], configured_level_value := some (some 1),
    log_file_type := some "log", settings := some st0,
    settings_path := some "./log_settings.json" }

/-- Process state in which handle 0 is registered for /logs/2026.log, open
and empty. -/
def sysShared : Sys := Sys.mk [("/logs/2026.log", 0)] [(0, FileState.mk true [])] 1 []

/-- Process state in which handle 0 is registered but its file object has
already been closed (used to exercise a failing banner write in close). -/
def sysClosed0 : Sys := Sys.mk [("/logs/2026.log", 0)] [(0, FileState.mk false [])] 1 []

/-- The empty process state. -/
def sysEmpty : Sys := Sys.mk [] [] 0 []

/-- The instance state create_log_file sees when called from line 100 of
__init__ (settings not yet assigned, log_file still None), with path
attributes filled in. -/
def instMid : PyInst :=
  { lock := some true, loglevel := some "INFO",
    file_path := some (some "/logs"), log_file := some none,
    log_file_name := some none, timestamp := some (some "2026"),
    supported_formats := some ["log", "txt"], configured_level_value := some (some 1),
    log_file_type := some "log", settings := none, settings_path := none }

/-- Looking up the modified key yields the modified value. -/
theorem alookup_amodify_self {κ α : Type} [DecidableEq κ] (l : List (κ × α)) (k : κ)
    (f : α → α) : alookup (amodify l k f) k = (alookup l k).map f := by
  induction l with
  | nil => rfl
  | cons p rest ih =>
    obtain ⟨k0, a⟩ := p
    by_cases hp : k0 = k
    · subst hp
      simp [amodify, alookup, ih]
    · simp [amodify, alookup, hp, ih]

/-- Looking up a removed key yields nothing. -/
theorem alookup_aremove_self {κ α : Type} [DecidableEq κ] (l : List (κ × α)) (k : κ) :
    alookup (aremove l k) k = none := by
  induction l with
  | nil => rfl
  | cons p rest ih =>
    obtain ⟨k0, a⟩ := p
    by_cases hp : k0 = k
    · subst hp
      simpa [aremove] using ih
    · simpa [aremove, alookup, hp] using ih

/-- Writing through an open handle succeeds and appends to that file object. -/
theorem Sys.write_of_open (sys : Sys) (h : Nat) (s : String)
    (hop : sys.handleOpen h = true) :
    sys.write h s = Except.ok { sys with
      files := amodify sys.files h (fun fs0 => { fs0 with contents := fs0.contents ++ [s] }) } := by
  cases hl : alookup sys.files h with
  | none => simp [Sys.handleOpen, hl] at hop
  | some fs =>
    have hfs : fs.isOpen = true := by simpa [Sys.handleOpen, hl] using hop
    simp [Sys.write, hl, hfs]

/-- The write of Sys.write_of_open extends the handle's contents by exactly
that string. -/
theorem contentsOf_write (sys : Sys) (h : Nat) (s : String)
    (hop : sys.handleOpen h = true) :
    Sys.contentsOf { sys with
        files := amodify sys.files h (fun fs0 => { fs0 with contents := fs0.contents ++ [s] }) } h
      = sys.contentsOf h ++ [s] := by
  cases hl : alookup sys.files h with
  | none => simp [Sys.handleOpen, hl] at hop
  | some fs => simp [Sys.contentsOf, alookup_amodify_self, hl]

/-- Closing a handle leaves it not open. -/
theorem handleOpen_closeHandle (sys : Sys) (h : Nat) :
    (sys.closeHandle h).handleOpen h = false := by
  cases hl : alookup sys.files h <;>
    simp [Sys.closeHandle, Sys.handleOpen, alookup_amodify_self, hl]

/-- C3: for every combination of constructor arguments (and of the modelled
environment), Logger.__init__ raises an exception before completing: line 80
reads self.settings to compute configured_level_value, but self.settings is
only ever assigned later (lines 109/115), so the read raises AttributeError,
no Logger instance is ever successfully constructed through __init__, and the
process-wide state is left untouched. -/
theorem C3_init_always_raises (output_dir log_file_type settings_path LogLevel now cwd : String)
    (resolvePath : String → String) (openOK : Bool) (settingsFile : Option Settings)
    (sys : Sys) :
    (Logger.init output_dir log_file_type settings_path LogLevel now cwd resolvePath openOK
        settingsFile sys).err = some (PyError.attributeError "settings")
    ∧ (Logger.init output_dir log_file_type settings_path LogLevel now cwd resolvePath openOK
        settingsFile sys).sys = sys :=
  And.intro rfl rfl

/-- C1: on an open logger (handle held and still open, lock present) with a
loaded level table, where the passed level resolves to ordinal o and the
configured threshold to ordinal t, log appends exactly one record to the file
iff o is at least t, and when o is below t the call writes nothing and raises
no error. -/
theorem C1_threshold_gate (self : PyInst) (sys : Sys) (ts level message : String)
    (context : Option String) (h : Nat) (st : Settings) (tbl : List (String × Int)) (o t : Int)
    (hlock : self.lock = some true)
    (hfile : self.log_file = some (some h))
    (hset : self.settings = some st)
    (htr : st.truthy = true)
    (hll : st.logLevels = some tbl)
    (hlvl : alookup tbl (pyUpper level) = some o)
    (hclv : self.configured_level_value = some (some t))
    (hopen : sys.handleOpen h = true) :
    ∃ sys2, Logger.log self sys ts level message context = Except.ok sys2
      ∧ (o ≥ t → ∃ r, sys2.contentsOf h = sys.contentsOf h ++ [r])
      ∧ (o < t → sys2 = sys) := by
  unfold Logger.log
  rw [hlock, hfile, hset, hclv]
  simp only [getattr, htr, if_true, Settings.getLogLevels, hll, hlvl]
  by_cases hot : o ≥ t
  · rw [if_pos hot]
    cases hctx : pyTruthyStr context
    · rw [if_pos rfl]
      refine ⟨_, Sys.write_of_open sys h _ hopen, fun _ => ⟨_, contentsOf_write sys h _ hopen⟩,
        fun hlt => absurd hlt (not_lt.mpr hot)⟩
    · rw [if_neg (by decide)]
      refine ⟨_, Sys.write_of_open sys h _ hopen, fun _ => ⟨_, contentsOf_write sys h _ hopen⟩,
        fun hlt => absurd hlt (not_lt.mpr hot)⟩
  · rw [if_neg hot]
    exact ⟨sys, rfl, fun hge => absurd hge hot, fun _ => rfl⟩

/-- C1 witness: the concrete open logger instA at threshold 1 receiving an
error-level call (ordinal 3) satisfies every hypothesis and appends exactly
one record. -/
theorem C1_threshold_gate_witness :
    (instA.lock = some true) ∧ (instA.log_file = some (some 0))
    ∧ (instA.settings = some st0) ∧ (st0.truthy = true) ∧ (st0.logLevels = some tbl0)
    ∧ (alookup tbl0 (pyUpper "error") = some 3)
    ∧ (instA.configured_level_value = some (some 1))
    ∧ (sysShared.handleOpen 0 = true)
    ∧ (∃ sys2, Logger.log instA sysShared "T" "error" "y" none = Except.ok sys2
        ∧ ((3 : Int) ≥ 1 → ∃ r, sys2.contentsOf 0 = sysShared.contentsOf 0 ++ [r])
        ∧ ((3 : Int) < 1 → sys2 = sysShared)) :=
  ⟨rfl, rfl, rfl, rfl, rfl, by decide, rfl, rfl,
    C1_threshold_gate instA sysShared "T" "error" "y" none 0 st0 tbl0 3 1
      rfl rfl rfl rfl rfl (by decide) rfl rfl⟩

/-- C5: on an open logger with a loaded level table, a level name that is
absent from the table after upper-casing makes log raise LevelNotSupported;
the error propagates with the process state unchanged, so nothing is appended
to the file. -/
theorem C5_unknown_level (self : PyInst) (sys : Sys) (ts level message : String)
    (context : Option String) (h : Nat) (st : Settings) (tbl : List (String × Int))
    (hlock : self.lock = some true)
    (hfile : self.log_file = some (some h))
    (hset : self.settings = some st)
    (htr : st.truthy = true)
    (hll : st.logLevels = some tbl)
    (habs : alookup tbl (pyUpper level) = none) :
    Logger.log self sys ts level message context
      = Except.error (PyError.levelNotSupported (pyUpper level ++ " is not a valid log level")) := by
  unfold Logger.log
  rw [hlock, hfile, hset]
  simp only [getattr, htr, if_true, Settings.getLogLevels, hll, habs]

/-- C5 witness: the concrete open logger instA raises LevelNotSupported on
the unknown level name nope and writes nothing. -/
theorem C5_unknown_level_witness :
    (instA.lock = some true) ∧ (instA.log_file = some (some 0))
    ∧ (instA.settings = some st0) ∧ (st0.truthy = true) ∧ (st0.logLevels = some tbl0)
    ∧ (alookup tbl0 (pyUpper "nope") = none)
    ∧ (Logger.log instA sysShared "T" "nope" "x" none
        = Except.error (PyError.levelNotSupported (pyUpper "nope" ++ " is not a valid log level"))) :=
  ⟨rfl, rfl, rfl, rfl, rfl, by decide,
    C5_unknown_level instA sysShared "T" "nope" "x" none 0 st0 tbl0
      rfl rfl rfl rfl rfl (by decide)⟩

/-- C9: every record log appends has the exact form of a bracketed timestamp,
a bracketed upper-cased level and the message, newline-terminated; exactly
when the context argument is supplied and truthy (non-empty, non-None) the
stringified context is appended in brackets after the message, and a None or
empty context appends nothing after the message. -/
theorem C9_record_format (self : PyInst) (sys : Sys) (ts level message : String)
    (context : Option String) (h : Nat) (st : Settings) (tbl : List (String × Int)) (o t : Int)
    (hlock : self.lock = some true)
    (hfile : self.log_file = some (some h))
    (hset : self.settings = some st)
    (htr : st.truthy = true)
    (hll : st.logLevels = some tbl)
    (hlvl : alookup tbl (pyUpper level) = some o)
    (hclv : self.configured_level_value = some (some t))
    (hopen : sys.handleOpen h = true)
    (hge : o ≥ t) :
    Logger.log self sys ts level message context = Except.ok { sys with
      files := amodify sys.files h (fun fs0 => { fs0 with contents := fs0.contents ++
        [if pyTruthyStr context then
            "[" ++ ts ++ "] [" ++ pyUpper level ++ "] " ++ message ++ " [" ++ pyStr context ++ "]\n"
          else
            "[" ++ ts ++ "] [" ++ pyUpper level ++ "] " ++ message ++ "\n"] }) } := by
  unfold Logger.log
  rw [hlock, hfile, hset, hclv]
  simp only [getattr, htr, if_true, Settings.getLogLevels, hll, hlvl, Logger.format]
  rw [if_pos hge]
  cases hctx : pyTruthyStr context
  · rw [if_pos rfl, Sys.write_of_open sys h _ hopen]
    simp
  · rw [if_neg (by decide), Sys.write_of_open sys h _ hopen]
    simp

/-- C9 witness: an INFO record at threshold INFO with context ctx ends with
the bracketed context before the newline. -/
theorem C9_record_format_witness :
    (instA.lock = some true) ∧ (instA.log_file = some (some 0))
    ∧ (instA.settings = some st0) ∧ (st0.truthy = true) ∧ (st0.logLevels = some tbl0)
    ∧ (alookup tbl0 (pyUpper "info") = some 1)
    ∧ (instA.configured_level_value = some (some 1))
    ∧ (sysShared.handleOpen 0 = true) ∧ ((1 : Int) ≥ 1)
    ∧ (Logger.log instA sysShared "T" "info" "m" (some "ctx") = Except.ok { sysShared with
        files := amodify sysShared.files 0 (fun fs0 => { fs0 with contents := fs0.contents ++
          [if pyTruthyStr (some "ctx") then
              "[" ++ "T" ++ "] [" ++ pyUpper "info" ++ "] " ++ "m" ++ " [" ++ pyStr (some "ctx") ++ "]\n"
            else
              "[" ++ "T" ++ "] [" ++ pyUpper "info" ++ "] " ++ "m" ++ "\n"] }) }) :=
  ⟨rfl, rfl, rfl, rfl, rfl, by decide, rfl, rfl, by decide,
    C9_record_format instA sysShared "T" "info" "m" (some "ctx") 0 st0 tbl0 1 1
      rfl rfl rfl rfl rfl (by decide) rfl rfl (by decide)⟩

/-- close on an instance whose handle was already released (log_file is None)
raises FileNotOpen immediately, touching neither the instance, the files nor
the registry. -/
theorem close_on_released (self : PyInst) (sys : Sys) (ts : String)
    (hnone : self.log_file = some none) :
    Logger.close self sys ts
      = StepResult.mk self sys (some (PyError.fileNotOpen "Log file is not open")) := by
  unfold Logger.close
  rw [hnone]
  rfl

/-- Deleting a registry entry leaves every handle's open state alone. -/
theorem handleOpen_delEntry (sys : Sys) (name : String) (h : Nat) :
    (sys.delEntry name).handleOpen h = sys.handleOpen h := by
  unfold Sys.delEntry
  cases alookup sys.open_loggers name <;> rfl

/-- After delEntry the name is no longer a registry key. -/
theorem alookup_delEntry_self (sys : Sys) (name : String) :
    alookup (sys.delEntry name).open_loggers name = none := by
  unfold Sys.delEntry
  cases halk : alookup sys.open_loggers name with
  | some v => simpa using alookup_aremove_self sys.open_loggers name
  | none => simpa using halk

/-- C7: after a close() on an instance that holds a handle, the instance's
log_file is None, and a second close() on it fails with FileNotOpen while
returning the instance and the process state exactly as they were, touching
neither the file nor the registry. -/
theorem C7_double_close (self : PyInst) (sys : Sys) (ts ts2 : String) (h : Nat)
    (nm : Option String)
    (hfile : self.log_file = some (some h))
    (hname : self.log_file_name = some nm) :
    ((Logger.close self sys ts).self.log_file = some none)
    ∧ (Logger.close (Logger.close self sys ts).self (Logger.close self sys ts).sys ts2
        = StepResult.mk (Logger.close self sys ts).self (Logger.close self sys ts).sys
            (some (PyError.fileNotOpen "Log file is not open"))) := by
  have h1 : (Logger.close self sys ts).self.log_file = some none := by
    unfold Logger.close
    rw [hfile, hname]
    simp only [getattr]
  exact ⟨h1, close_on_released _ _ ts2 h1⟩

/-- C7 witness: closing instA twice; the second close fails with FileNotOpen
and changes nothing. -/
theorem C7_double_close_witness :
    (instA.log_file = some (some 0)) ∧ (instA.log_file_name = some (some "/logs/2026.log"))
    ∧ ((Logger.close instA sysShared "T").self.log_file = some none)
    ∧ (Logger.close (Logger.close instA sysShared "T").self (Logger.close instA sysShared "T").sys "T2"
        = StepResult.mk (Logger.close instA sysShared "T").self (Logger.close instA sysShared "T").sys
            (some (PyError.fileNotOpen "Log file is not open"))) := by
  refine ⟨rfl, rfl, ?_, ?_⟩
  · exact (C7_double_close instA sysShared "T" "T2" 0 (some "/logs/2026.log") rfl rfl).1
  · exact (C7_double_close instA sysShared "T" "T2" 0 (some "/logs/2026.log") rfl rfl).2

/-- C8: close() on an instance holding a handle always releases: whatever the
attempted final INFO Closing file write does (including raising), the finally
block closes the underlying file object, removes the registry entry for the
instance's file name, and nulls the instance's handle. -/
theorem C8_close_always_releases (self : PyInst) (sys : Sys) (ts name0 : String) (h : Nat)
    (hfile : self.log_file = some (some h))
    (hname : self.log_file_name = some (some name0)) :
    ((Logger.close self sys ts).self.log_file = some none)
    ∧ ((Logger.close self sys ts).sys.handleOpen h = false)
    ∧ (alookup (Logger.close self sys ts).sys.open_loggers name0 = none) := by
  have hc : Logger.close self sys ts
      = StepResult.mk { self with log_file := some none }
          (Sys.delEntry
            (Sys.closeHandle
              (match Logger.log self sys ts "info" "Closing file" none with
               | Except.ok s => s
               | Except.error _ => sys) h) name0)
          (match Logger.log self sys ts "info" "Closing file" none with
           | Except.ok _ => none
           | Except.error e => some e) := by
    unfold Logger.close
    rw [hfile, hname]
    rfl
  rw [hc]
  exact ⟨rfl, by rw [handleOpen_delEntry, handleOpen_closeHandle],
    alookup_delEntry_self _ _⟩

/-- C8 witness: on a state whose file object is already closed the banner
write raises ValueError, and close still closes the handle, evicts the
registry entry and nulls the instance handle. -/
theorem C8_close_always_releases_witness :
    (instA.log_file = some (some 0))
    ∧ (instA.log_file_name = some (some "/logs/2026.log"))
    ∧ (Logger.log instA sysClosed0 "T" "info" "Closing file" none
        = Except.error (PyError.valueError "I/O operation on closed file"))
    ∧ ((Logger.close instA sysClosed0 "T").self.log_file = some none)
    ∧ ((Logger.close instA sysClosed0 "T").sys.handleOpen 0 = false)
    ∧ (alookup (Logger.close instA sysClosed0 "T").sys.open_loggers "/logs/2026.log" = none) := by
  refine ⟨rfl, rfl, rfl, ?_, ?_, ?_⟩
  · exact (C8_close_always_releases instA sysClosed0 "T" "/logs/2026.log" 0 rfl rfl).1
  · exact (C8_close_always_releases instA sysClosed0 "T" "/logs/2026.log" 0 rfl rfl).2.1
  · exact (C8_close_always_releases instA sysClosed0 "T" "/logs/2026.log" 0 rfl rfl).2.2

/-- C4: when the computed log-file name is already a key of the open_loggers
registry, create_log_file reuses the registered handle: it stores that handle
on the instance, opens no new file resource, leaves the process state
unchanged and raises nothing — so a resolved path stays associated with at
most one open file resource however many instances reference it. -/
theorem C4_registry_reuse (self : PyInst) (sys : Sys) (openOK : Bool) (ts p t0 ext : String)
    (h : Nat)
    (hfp : self.file_path = some (some p))
    (hts : self.timestamp = some (some t0))
    (hext : self.log_file_type = some ext)
    (hreg : alookup sys.open_loggers (p ++ "/" ++ t0 ++ "." ++ ext) = some h) :
    Logger.create_log_file self sys openOK ts
      = StepResult.mk
          { self with
            log_file_name := some (some (p ++ "/" ++ t0 ++ "." ++ ext)),
            log_file := some (some h) }
          sys none := by
  unfold Logger.create_log_file Logger.get_log_name
  rw [hfp, hts, hext]
  simp only [getattr, pyStr, hreg]

/-- C4 witness: a second instance resolving to /logs/2026.log, already
registered with handle 0 in sysShared, is handed handle 0 and the state is
untouched. -/
theorem C4_registry_reuse_witness :
    (instA.file_path = some (some "/logs")) ∧ (instA.timestamp = some (some "2026"))
    ∧ (instA.log_file_type = some "log")
    ∧ (alookup sysShared.open_loggers ("/logs" ++ "/" ++ "2026" ++ "." ++ "log") = some 0)
    ∧ (Logger.create_log_file instA sysShared true "T"
        = StepResult.mk
            { instA with
              log_file_name := some (some ("/logs" ++ "/" ++ "2026" ++ "." ++ "log")),
              log_file := some (some 0) }
            sysShared none) :=
  ⟨rfl, rfl, rfl, by decide,
    C4_registry_reuse instA sysShared true "T" "/logs" "2026" "log" 0 rfl rfl rfl (by decide)⟩

/-- The second Logger instance of the shared-path scenario: it holds the very
same registry entry and file handle as instA. -/
def instB : PyInst := instA

/-- C2 (evidence for the code bug): instA and instB share handle 0 for
/logs/2026.log; instA's close succeeds, yet it closes the shared file object
and removes the registry entry at once (there is no reference count), so
instB's following write raises ValueError instead of succeeding. -/
theorem C2_shared_close_breaks_second :
    ((Logger.close instA sysShared "T1").err = none)
    ∧ ((Logger.close instA sysShared "T1").sys.handleOpen 0 = false)
    ∧ (alookup (Logger.close instA sysShared "T1").sys.open_loggers "/logs/2026.log" = none)
    ∧ (Logger.log instB (Logger.close instA sysShared "T1").sys "T2" "info" "second" none
        = Except.error (PyError.valueError "I/O operation on closed file")) :=
  ⟨rfl, rfl, rfl, rfl⟩

/-- C6 counterexample: constructing with configured level name NOSUCH, absent
from the level table, fails with AttributeError (the line-80 read of the
never-assigned self.settings), not with LevelNotSupported. -/
theorem C6_counterexample :
    ((Logger.init "logs" "log" "./log_settings.json" "NOSUCH" "2026" "/cwd"
        (fun s => s) true (some st0) sysEmpty).err
      = some (PyError.attributeError "settings"))
    ∧ (((Logger.init "logs" "log" "./log_settings.json" "NOSUCH" "2026" "/cwd"
        (fun s => s) true (some st0) sysEmpty).err.map PyError.isLevelNotSupported)
      = some false) :=
  ⟨rfl, rfl⟩

/-- C6 amended: construction never raises LevelNotSupported, whatever the
configured level name: every __init__ run fails with an exception that is not
LevelNotSupported (the AttributeError of line 80, raised before the
configured level could be validated — and that line looks the level up with
dict.get, which would return None for an unknown name rather than raise), so
no logger is ever constructed at all, with an unresolvable threshold or
otherwise. -/
theorem C6_amended_no_level_validation
    (output_dir log_file_type settings_path LogLevel now cwd : String)
    (resolvePath : String → String) (openOK : Bool) (settingsFile : Option Settings)
    (sys : Sys) :
    ((Logger.init output_dir log_file_type settings_path LogLevel now cwd resolvePath openOK
        settingsFile sys).err.map PyError.isLevelNotSupported = some false)
    ∧ ((Logger.init output_dir log_file_type settings_path LogLevel now cwd resolvePath openOK
        settingsFile sys).err.isSome = true) :=
  ⟨rfl, rfl⟩

/-- C10 counterexample: with an empty registry and a failing open,
create_log_file returns err none — the IOError is caught inside it, a
diagnostic goes to the stderr side channel, the instance keeps log_file None,
and construction is not stopped by any error reported to the caller. -/
theorem C10_counterexample :
    ((Logger.create_log_file instMid sysEmpty false "T").err = none)
    ∧ ((Logger.create_log_file instMid sysEmpty false "T").sys.stderr
        = ["Error: Unable to open log file /logs/2026.log\n"])
    ∧ ((Logger.create_log_file instMid sysEmpty false "T").self.log_file = some none) :=
  ⟨rfl, rfl, rfl⟩

/-- C10 amended: when opening a new log file fails, create_log_file catches
the IOError, appends a diagnostic line to stderr, registers nothing, leaves
log_file untouched, and returns no error: the failure is reported only on the
side error channel and construction is not aborted by it (the code has no
FileOpenFailed error class at all). -/
theorem C10_amended_open_failure_swallowed (self : PyInst) (sys : Sys) (ts p t0 ext : String)
    (hfp : self.file_path = some (some p))
    (hts : self.timestamp = some (some t0))
    (hext : self.log_file_type = some ext)
    (hreg : alookup sys.open_loggers (p ++ "/" ++ t0 ++ "." ++ ext) = none) :
    Logger.create_log_file self sys false ts
      = StepResult.mk { self with log_file_name := some (some (p ++ "/" ++ t0 ++ "." ++ ext)) }
          { sys with stderr := sys.stderr
              ++ ["Error: Unable to open log file " ++ (p ++ "/" ++ t0 ++ "." ++ ext) ++ "\n"] }
          none := by
  unfold Logger.create_log_file Logger.get_log_name
  rw [hfp, hts, hext]
  simp only [getattr, pyStr, hreg]
  rfl

/-- C10 amendment witness: the concrete failing open of the counterexample
state satisfies the hypotheses and produces exactly the swallowed-error
result. -/
theorem C10_amended_open_failure_swallowed_witness :
    (instMid.file_path = some (some "/logs")) ∧ (instMid.timestamp = some (some "2026"))
    ∧ (instMid.log_file_type = some "log")
    ∧ (alookup sysEmpty.open_loggers ("/logs" ++ "/" ++ "2026" ++ "." ++ "log") = none)
    ∧ (Logger.create_log_file instMid sysEmpty false "T"
        = StepResult.mk { instMid with
              log_file_name := some (some ("/logs" ++ "/" ++ "2026" ++ "." ++ "log")) }
            { sysEmpty with stderr := sysEmpty.stderr
                ++ ["Error: Unable to open log file " ++ ("/logs" ++ "/" ++ "2026" ++ "." ++ "log") ++ "\n"] }
            none) :=
  ⟨rfl, rfl, rfl, rfl,
    C10_amended_open_failure_swallowed instMid sysEmpty "T" "/logs" "2026" "log" rfl rfl rfl rfl⟩
